import Mathlib

/-!
Verification development for the WhatsApp Web client library.

This file shallowly embeds the parts of the JavaScript source that the
checked properties concern:

* `src/binary.js` — the `BinaryHandler` node codec together with its
  `BinaryWriter`/`BinaryReader` helpers (JavaScript values are modelled by
  `JSVal`, buffers and strings by `List Nat` of byte values, the reader by an
  explicit position into the byte list, the two `throw new Error(...)` sites
  by the `CodecError` type);
* `src/utils.js` — `whatsappDecrypt`, parameterised over the external crypto
  primitives (`hmacSha256` and the AES-CBC decryption), which are Node
  library calls, not code of this repository;
* `src/websocket-real.js` (`RealWebSocketManager`) — the connection state,
  the timer bookkeeping, backoff computation, the dead-connection path and
  the request correlator, as pure state-passing functions on `ManagerState`
  (the randomness drawn by `Math.random()` and `crypto.randomBytes` appears
  as explicit parameters);
* `src/production-client.js` — the rate-limited outbound message queue of
  `ProductionWhatsAppClient`.
-/

/-! ## Binary node codec (`src/binary.js`) -/

/-- A JavaScript value as handled by `BinaryHandler._writeNode` /
`_readNode`: `null`/`undefined`, a string (kept as its UTF-8 byte list), a
non-negative integer, a `Buffer`, an array, or a node object.  A node object
carries the three special fields `tag`, `content`, `children` plus the
remaining enumerable properties as attributes, exactly the split made by
`_writeObject`. -/
inductive JSVal where
  | null
  | str (s : List Nat)
  | num (n : Nat)
  | bytes (b : List Nat)
  | arr (elems : List JSVal)
  | obj (tag : Option (List Nat)) (attrs : List (List Nat × JSVal))
      (content : Option JSVal) (children : Option (List JSVal))
deriving Repr

/-- The two `throw new Error(...)` sites of the codec: `BinaryReader` throws
`Unexpected end of binary data` on underrun, `_readNode` throws
`Unknown binary marker` on an unrecognised marker byte.  The spec calls both
a `CodecError`. -/
inductive CodecError where
  | endOfData
  | unknownMarker (m : Nat)
deriving Repr, DecidableEq

/-- The `TOKENS` dictionary of `BinaryHandler`, without its reserved leading
`null` entry (index 0).  Entry `i` here is `TOKENS[i+1]` in the source; each
string is given as its ASCII byte list. -/
def tokens : List (List Nat) :=
  [ [115, 116, 114, 101, 97, 109, 58, 115, 116, 97, 114, 116]  -- stream:start
  , [115, 116, 114, 101, 97, 109, 58, 101, 110, 100]           -- stream:end
  , [105, 113]                                                 -- iq
  , [109, 101, 115, 115, 97, 103, 101]                         -- message
  , [110, 111, 116, 105, 102, 105, 99, 97, 116, 105, 111, 110] -- notification
  , [112, 114, 101, 115, 101, 110, 99, 101]                    -- presence
  , [114, 101, 99, 101, 105, 112, 116]                         -- receipt
  , [114, 101, 115, 112, 111, 110, 115, 101]                   -- response
  , [115, 117, 99, 99, 101, 115, 115]                          -- success
  , [102, 97, 105, 108, 117, 114, 101]                         -- failure
  , [97, 117, 116, 104]                                        -- auth
  , [99, 104, 97, 108, 108, 101, 110, 103, 101]                -- challenge
  , [116, 121, 112, 101]                                       -- type
  , [105, 100]                                                 -- id
  , [102, 114, 111, 109]                                       -- from
  , [116, 111]                                                 -- to
  , [120, 109, 108, 110, 115]                                  -- xmlns
  , [99, 108, 97, 115, 115]                                    -- class
  , [116, 101, 120, 116]                                       -- text
  , [109, 101, 100, 105, 97]                                   -- media
  , [105, 109, 97, 103, 101]                                   -- image
  , [118, 105, 100, 101, 111]                                  -- video
  , [97, 117, 100, 105, 111]                                   -- audio
  , [100, 111, 99, 117, 109, 101, 110, 116]                    -- document
  , [98, 111, 100, 121]                                        -- body
  , [112, 97, 114, 116, 105, 99, 105, 112, 97, 110, 116]       -- participant
  , [103, 114, 111, 117, 112]                                  -- group
  , [99, 111, 110, 116, 97, 99, 116]                           -- contact
  , [115, 116, 97, 116, 117, 115] ]                            -- status

/-- `this.TOKENS.indexOf(str)` of `_writeString`: the index into the full
dictionary (with the reserved entry at 0), `none` when absent.  A found index
is always in `1..29`, so the source's `tokenIndex > 0 && tokenIndex < 256`
test reduces to presence. -/
def tokenIndexOf (s : List Nat) : Option Nat :=
  match tokens.indexOf? s with
  | some i => some (i + 1)
  | none => none

/-- `this.TOKENS[marker]` of `_readNode` for `1 <= marker < TOKENS.length`. -/
def tokenAt (marker : Nat) : List Nat :=
  tokens.getD (marker - 1) []

/-- `BinaryWriter.writeInt20`: a 20-bit length written big-endian in three
bytes, each masked with `& 0xFF`. -/
def writeInt20 (v : Nat) : List Nat :=
  [v / 65536 % 256, v / 256 % 256, v % 256]

/-- JavaScript `num.toString()` for a non-negative integer, as ASCII bytes. -/
def decimalBytes (n : Nat) : List Nat :=
  (Nat.toDigits 10 n).map Char.toNat

/-- `BinaryHandler._writeString`: a token index when the string is in the
dictionary, otherwise a `String8` (marker 252) or `String20` (marker 253)
length-prefixed literal. -/
def writeString (s : List Nat) : List Nat :=
  match tokenIndexOf s with
  | some i => [i]
  | none =>
    if s.length < 256 then 252 :: s.length :: s
    else 253 :: writeInt20 s.length ++ s

/-- `BinaryHandler._writeNumber`: marker 250 plus the byte for small
non-negative integers, otherwise the decimal string. -/
def writeNumber (n : Nat) : List Nat :=
  if n < 256 then [250, n] else writeString (decimalBytes n)

/-- `BinaryHandler._writeBytes`: marker 254, a 20-bit length, the raw
bytes. -/
def writeBytes (b : List Nat) : List Nat :=
  254 :: writeInt20 b.length ++ b

mutual

/-- `BinaryHandler._writeNode`: dispatch on the runtime type of the value.
`null`/`undefined` becomes the single byte 0. -/
def writeNode : JSVal → List Nat
  | .str s => writeString s
  | .num n => writeNumber n
  | .bytes b => writeBytes b
  | .arr xs => 251 :: xs.length % 256 :: writeNodeList xs
  | .obj tag attrs content children =>
      (match tag with
       | some t => if t = [] then [0] else writeString t
       | none => [0])
      ++ attrs.length % 256 :: writeAttrList attrs
      ++ (match content with
          | some c => writeNode c
          | none =>
            match children with
            | some cs => 251 :: cs.length % 256 :: writeNodeList cs
            | none => [0])
  | .null => [0]

/-- The element loop of `BinaryHandler._writeArray`. -/
def writeNodeList : List JSVal → List Nat
  | [] => []
  | x :: xs => writeNode x ++ writeNodeList xs

/-- The attribute loop of `BinaryHandler._writeObject`: each attribute is the
encoded key string followed by the encoded value. -/
def writeAttrList : List (List Nat × JSVal) → List Nat
  | [] => []
  | (k, v) :: rest => writeString k ++ writeNode v ++ writeAttrList rest

end

/-- `BinaryHandler.encode`. -/
def encode (v : JSVal) : List Nat := writeNode v

/-- `BinaryReader.readByte`: a byte at the current position, or the underrun
error when the position is at or past the end. -/
def readByte (data : List Nat) (pos : Nat) : Except CodecError (Nat × Nat) :=
  if h : pos < data.length then .ok (data.get ⟨pos, h⟩, pos + 1)
  else .error .endOfData

/-- `BinaryReader.readBytes`: `count` bytes from the current position, or the
underrun error when `position + count` exceeds the length. -/
def readBytesAt (data : List Nat) (pos count : Nat) :
    Except CodecError (List Nat × Nat) :=
  if pos + count ≤ data.length then .ok ((data.drop pos).take count, pos + count)
  else .error .endOfData

/-- `BinaryReader.readInt20`: three bytes combined big-endian. -/
def readInt20 (data : List Nat) (pos : Nat) : Except CodecError (Nat × Nat) :=
  match readBytesAt data pos 3 with
  | .error e => .error e
  | .ok (bs, p) => .ok (bs.getD 0 0 * 65536 + bs.getD 1 0 * 256 + bs.getD 2 0, p)

/-- `_readObject` coerces each decoded attribute key to an object property
name: a decoded string keeps its bytes, a decoded number its decimal form. -/
def keyToBytes : JSVal → List Nat
  | .str s => s
  | .num n => decimalBytes n
  | _ => []

/-- The object assembly at the end of `BinaryHandler._readObject`: a truthy
string tag is kept, a decoded array content goes to `children`, a non-null
scalar to `content`. -/
def mkDecodedObj (tagVal : JSVal) (attrs : List (List Nat × JSVal))
    (contentVal : JSVal) : JSVal :=
  let tag : Option (List Nat) :=
    match tagVal with
    | .str s => if s = [] then none else some s
    | _ => none
  match contentVal with
  | .null => .obj tag attrs none none
  | .arr xs => .obj tag attrs none (some xs)
  | c => .obj tag attrs (some c) none

mutual

/-- `BinaryHandler._readNode`.  The `fuel` parameter bounds the recursion
depth of the embedding only; every JavaScript recursion consumes at least one
input byte, so `decode` below supplies fuel that can never run out before a
genuine end-of-input. -/
def readNode : Nat → List Nat → Nat → Except CodecError (JSVal × Nat)
  | 0, _, _ => .error .endOfData
  | fuel + 1, data, pos =>
    match readByte data pos with
    | .error e => .error e
    | .ok (marker, p1) =>
      if marker = 0 then .ok (.null, p1)
      else if marker < 30 then .ok (.str (tokenAt marker), p1)
      else if marker = 250 then
        match readByte data p1 with
        | .error e => .error e
        | .ok (b, p2) => .ok (.num b, p2)
      else if marker = 251 then
        match readByte data p1 with
        | .error e => .error e
        | .ok (len, p2) =>
          match readValList fuel data p2 len with
          | .error e => .error e
          | .ok (xs, p3) => .ok (.arr xs, p3)
      else if marker = 252 then
        match readByte data p1 with
        | .error e => .error e
        | .ok (len, p2) =>
          match readBytesAt data p2 len with
          | .error e => .error e
          | .ok (s, p3) => .ok (.str s, p3)
      else if marker = 253 then
        match readInt20 data p1 with
        | .error e => .error e
        | .ok (len, p2) =>
          match readBytesAt data p2 len with
          | .error e => .error e
          | .ok (s, p3) => .ok (.str s, p3)
      else if marker = 254 then
        match readInt20 data p1 with
        | .error e => .error e
        | .ok (len, p2) =>
          match readBytesAt data p2 len with
          | .error e => .error e
          | .ok (b, p3) => .ok (.bytes b, p3)
      else if marker = 255 then
        readObjBody fuel data p1
      else .error (.unknownMarker marker)
termination_by structural fuel _ _ => fuel

/-- The element loop of `BinaryHandler._readArray`. -/
def readValList : Nat → List Nat → Nat → Nat → Except CodecError (List JSVal × Nat)
  | _, _, pos, 0 => .ok ([], pos)
  | 0, _, _, _ + 1 => .error .endOfData
  | fuel + 1, data, pos, count + 1 =>
    match readNode fuel data pos with
    | .error e => .error e
    | .ok (v, p1) =>
      match readValList fuel data p1 count with
      | .error e => .error e
      | .ok (vs, p2) => .ok (v :: vs, p2)
termination_by structural fuel _ _ _ => fuel

/-- The attribute loop of `BinaryHandler._readObject`. -/
def readAttrList : Nat → List Nat → Nat → Nat →
    Except CodecError (List (List Nat × JSVal) × Nat)
  | _, _, pos, 0 => .ok ([], pos)
  | 0, _, _, _ + 1 => .error .endOfData
  | fuel + 1, data, pos, count + 1 =>
    match readNode fuel data pos with
    | .error e => .error e
    | .ok (k, p1) =>
      match readNode fuel data p1 with
      | .error e => .error e
      | .ok (v, p2) =>
        match readAttrList fuel data p2 count with
        | .error e => .error e
        | .ok (rest, p3) => .ok ((keyToBytes k, v) :: rest, p3)
termination_by structural fuel _ _ _ => fuel

/-- `BinaryHandler._readObject`, entered from `_readNode` on marker 255: the
tag, a one-byte attribute count, the attributes, then the content. -/
def readObjBody : Nat → List Nat → Nat → Except CodecError (JSVal × Nat)
  | 0, _, _ => .error .endOfData
  | fuel + 1, data, pos =>
    match readNode fuel data pos with
    | .error e => .error e
    | .ok (tagVal, p1) =>
      match readByte data p1 with
      | .error e => .error e
      | .ok (attrCount, p2) =>
        match readAttrList fuel data p2 attrCount with
        | .error e => .error e
        | .ok (attrs, p3) =>
          match readNode fuel data p3 with
          | .error e => .error e
          | .ok (contentVal, p4) => .ok (mkDecodedObj tagVal attrs contentVal, p4)
termination_by structural fuel _ _ => fuel

end

/-- `BinaryHandler.decode`: parse one node from position 0.  The fuel
`4 * data.length + 16` dominates the recursion depth of any parse (each
nested call consumes at least one byte, with a bounded number of helper
levels per byte), so the fuel guard never fires before a genuine underrun. -/
def decode (data : List Nat) : Except CodecError JSVal :=
  match readNode (4 * data.length + 16) data 0 with
  | .error e => .error e
  | .ok (v, _) => .ok v

/-! ## Cipher layer (`whatsappDecrypt` in `src/utils.js`) -/

/-- The failure modes of `whatsappDecrypt`: the explicit
`throw new Error('HMAC verification failed')`, and the `RangeError` that
`crypto.timingSafeEqual` raises when its two arguments differ in length
(which happens exactly when the blob is shorter than 32 bytes). -/
inductive CryptoError where
  | hmacMismatch
  | lengthMismatch
deriving Repr, DecidableEq

/-- `whatsappDecrypt(encKey, macKey, ciphertext)` from `src/utils.js`,
parameterised over the two external crypto primitives it calls:
`hmac k d` stands for `crypto.createHmac('sha256', k).update(d).digest()`
(a 32-byte digest) and `aesDec k c` for the `aesDecrypt` AES-CBC helper.
The first 32 bytes of the blob are the received tag, the HMAC is recomputed
over the remainder with `macKey` and compared by `crypto.timingSafeEqual`;
only on success is the remainder decrypted. -/
def whatsappDecrypt (hmac : List Nat → List Nat → List Nat)
    (aesDec : List Nat → List Nat → List Nat)
    (encKey macKey ciphertext : List Nat) : Except CryptoError (List Nat) :=
  let receivedHmac := ciphertext.take 32
  let encryptedData := ciphertext.drop 32
  let computedHmac := hmac macKey encryptedData
  if receivedHmac.length ≠ computedHmac.length then .error .lengthMismatch
  else if receivedHmac = computedHmac then .ok (aesDec encKey encryptedData)
  else .error .hmacMismatch

/-! ## Key agreement placeholders (`RealWebSocketManager` in
`src/websocket-real.js`) -/

/-- The Curve25519 clamp applied by `_generateKeyPair` to the 32 random
private-key bytes: clear the low 3 bits of byte 0, clear the high bit and set
bit 6 of byte 31. -/
def clampPrivateKey (k : List Nat) : List Nat :=
  let k1 := k.set 0 (k.getD 0 0 &&& 248)
  k1.set 31 (k1.getD 31 0 &&& 127 ||| 64)

/-- `RealWebSocketManager._generateKeyPair`.  The two 32-byte draws of
`crypto.randomBytes(32)` appear as the explicit arguments `privRandom` and
`pubRandom`: the private key is the clamped first draw, and the "public key"
is the second draw, verbatim — the source performs no scalar
multiplication. -/
def generateKeyPair (privRandom pubRandom : List Nat) : List Nat × List Nat :=
  (clampPrivateKey privRandom, pubRandom)

/-- `RealWebSocketManager._computeSharedSecret(serverPublicKey)`.  The body
is `return crypto.randomBytes(32)`; the draw appears as the explicit
argument `randomDraw`.  The `serverPublicKey` parameter (the first 32 bytes
of the server secret blob, passed at the call site in
`_handleConnectionInfo`) is ignored, and the instance's private key is not
consulted at all. -/
def computeSharedSecret (randomDraw serverPublicKey : List Nat) : List Nat :=
  randomDraw

/-! ## Reconnection backoff (`_calculateBackoffDelay`) -/

/-- The deterministic part of `_calculateBackoffDelay`:
`Math.min(baseDelay * Math.pow(2, attempts - 1), 30000)`.  The exponent is
the JavaScript number `attempts - 1`, so `attempts = 0` gives the fractional
power `2^(-1)`; delays are therefore modelled in `ℚ`. -/
def backoffExponential (base : ℚ) (attempts : ℕ) : ℚ :=
  min (base * 2 ^ ((attempts : ℤ) - 1)) 30000

/-- `RealWebSocketManager._calculateBackoffDelay`: the capped exponential
plus `Math.random() * 1000` jitter, with the `Math.random()` draw (a value
in `[0, 1)`) as the explicit argument `jitterRand`. -/
def calculateBackoffDelay (base : ℚ) (attempts : ℕ) (jitterRand : ℚ) : ℚ :=
  backoffExponential base attempts + jitterRand * 1000

/-! ## Connection supervisor state (`RealWebSocketManager`) -/

/-- The values `this.connectionState` takes in `src/websocket-real.js`:
`disconnected`, `connecting`, `connected`, `authenticated` (the constructor
comment lists exactly these; there is no separate ready value on the
manager). -/
inductive ConnState where
  | disconnected
  | connecting
  | connected
  | authenticated
deriving Repr, DecidableEq

/-- The `desc` field of a pending entry in `this.messageQueue` (the request
correlator map): `'_login'` or `'_restoresession'`. -/
inductive QueueDesc where
  | login
  | restoreSession
deriving Repr, DecidableEq

/-- Events emitted by the manager that the checked properties mention. -/
inductive MgrEvent where
  | connected
  | connectionLost
  | keepAlivePing
deriving Repr, DecidableEq

/-- The mutable fields of `RealWebSocketManager` that the checked properties
concern.  Timers are `Bool` flags (armed or not); the reconnect timer also
records the delay it was armed with.  `messageQueue` is the correlator
`Map` keyed by message tag (tags modelled as `ℕ`; a JavaScript `Map` has
unique keys).  `reconnectDelay` is the constructor option used as the
backoff base. -/
structure ManagerState where
  connectionState : ConnState
  isConnected : Bool
  isAuthenticated : Bool
  autoReconnect : Bool
  connectionAttempts : ℕ
  messageSentCount : ℕ
  reconnectDelay : ℚ
  wsPresent : Bool
  wsOpen : Bool
  pingInterval : Bool
  connectionMonitor : Bool
  pongTimeout : Bool
  reconnectTimer : Option ℚ
  messageQueue : List (ℕ × QueueDesc)
deriving Repr

/-- `RealWebSocketManager._clearKeepAlive`: clears `pingInterval`,
`connectionMonitor`, `pongTimeout` and `reconnectTimer`. -/
def clearKeepAlive (s : ManagerState) : ManagerState :=
  { s with pingInterval := false, connectionMonitor := false,
           pongTimeout := false, reconnectTimer := none }

/-- `RealWebSocketManager._startKeepAlive`: clears the existing timers, then
arms the ping interval and the connection monitor (the pong timeout is armed
per tick). -/
def startKeepAlive (s : ManagerState) : ManagerState :=
  { clearKeepAlive s with pingInterval := true, connectionMonitor := true }

/-- `RealWebSocketManager._handleOpen`: socket open sets state `connected`,
resets `connectionAttempts` to zero, starts keep-alive, emits
`connected`. -/
def handleOpen (s : ManagerState) : ManagerState × List MgrEvent :=
  (startKeepAlive { s with connectionState := .connected, isConnected := true,
                           connectionAttempts := 0 },
   [.connected])

/-- The entry of `RealWebSocketManager.connect()` up to the socket attempt:
a no-op while already `connecting` or `connected`, otherwise state becomes
`connecting` and the attempt counter increments. -/
def connectStart (s : ManagerState) : ManagerState :=
  if s.connectionState = .connecting ∨ s.connectionState = .connected then s
  else { s with connectionState := .connecting,
                connectionAttempts := s.connectionAttempts + 1 }

/-- `RealWebSocketManager.disconnect()`: disables auto-reconnect, sets state
`disconnected`, clears the keep-alive timers (including the reconnect
timer), closes or terminates the socket, nulls `this.ws`, clears the
connection flags and resets the counters.  The correlator `messageQueue` is
not touched. -/
def disconnect (s : ManagerState) : ManagerState :=
  { clearKeepAlive { s with autoReconnect := false,
                            connectionState := .disconnected } with
    wsPresent := false, wsOpen := false,
    isConnected := false, isAuthenticated := false,
    connectionAttempts := 0, messageSentCount := 0 }

/-- `RealWebSocketManager._handleConnectionDead`: state `disconnected`,
socket terminated and nulled, all timers cleared, one `connection_lost`
emitted, and — when auto-reconnect is on — one reconnect timer armed with
the backoff delay for the current attempt count (`jitterRand` is the
`Math.random()` draw inside `_calculateBackoffDelay`). -/
def handleConnectionDead (jitterRand : ℚ) (s : ManagerState) :
    ManagerState × List MgrEvent :=
  let s1 := clearKeepAlive { s with connectionState := .disconnected,
                                    isConnected := false, wsPresent := false,
                                    wsOpen := false }
  let d := calculateBackoffDelay s.reconnectDelay s.connectionAttempts jitterRand
  if s.autoReconnect then ({ s1 with reconnectTimer := some d }, [.connectionLost])
  else (s1, [.connectionLost])

/-- One tick of the `pingInterval` timer armed by `_startKeepAlive`: with an
open socket it sends the keep-alive probe and arms the pong deadline;
otherwise it invokes the dead-connection path. -/
def keepAliveTick (jitterRand : ℚ) (s : ManagerState) :
    ManagerState × List MgrEvent :=
  if s.wsPresent ∧ s.wsOpen then
    ({ s with pongTimeout := true }, [.keepAlivePing])
  else handleConnectionDead jitterRand s

/-- The pong-deadline callback armed inside the keep-alive tick: its body is
a call to `_handleConnectionDead`. -/
def pongDeadlineElapsed (jitterRand : ℚ) (s : ManagerState) :
    ManagerState × List MgrEvent :=
  handleConnectionDead jitterRand s

/-! ## Request correlator (`_handleTextMessage` / `_handleQueuedMessage`) -/

/-- `RealWebSocketManager._handleQueuedMessage`: fetch the pending entry for
the tag, delete it from the map, and route the message content to that
entry (its resolver or rejecter, depending on parse and status).  The
returned option names the entry the content was dispatched to. -/
def handleQueuedMessage (s : ManagerState) (tag : ℕ) (content : ℕ) :
    ManagerState × Option (ℕ × QueueDesc × ℕ) :=
  match s.messageQueue.lookup tag with
  | none => (s, none)
  | some item =>
    ({ s with messageQueue := s.messageQueue.filter (fun p => p.1 ≠ tag) },
     some (tag, item, content))

/-- `RealWebSocketManager._handleTextMessage`: a message whose leading tag
matches a pending correlator entry is handed to `_handleQueuedMessage`;
otherwise the body goes down the JSON path, which never touches the
correlator's resolvers. -/
def handleTextMessage (s : ManagerState) (tag : ℕ) (content : ℕ) :
    ManagerState × Option (ℕ × QueueDesc × ℕ) :=
  if (s.messageQueue.lookup tag).isSome then handleQueuedMessage s tag content
  else (s, none)

/-! ## Rate-limited outbound queue (`ProductionWhatsAppClient`) -/

/-- How one settlement of a queued-message promise happened during a
processing tick: `resolved id` / `rejected id` mean the promise created by
`_queueMessage` for queue entry `id` was settled. -/
inductive Settlement where
  | resolved (id : ℕ)
  | rejected (id : ℕ)
deriving Repr, DecidableEq

/-- The promise id a settlement settles. -/
def Settlement.target : Settlement → ℕ
  | .resolved id => id
  | .rejected id => id

/-- The fields of `ProductionWhatsAppClient` driving `_processMessageQueue`.
Queue entries are identified by the id of the promise `_queueMessage`
returned for them. -/
structure ClientQueueState where
  messagingActive : Bool
  isReady : Bool
  messageQueue : List ℕ
deriving Repr

/-- `ProductionWhatsAppClient._queueMessage`: push the entry (with its
resolve/reject pair) onto the FIFO. -/
def queueMessage (s : ClientQueueState) (id : ℕ) : ClientQueueState :=
  { s with messageQueue := s.messageQueue ++ [id] }

/-- `ProductionWhatsAppClient._processMessageQueue`: a no-op while busy,
empty or not ready; otherwise shift the first entry and run its function
(`outcome` is that call's result).  On success the shifted entry's promise
resolves; on failure the error is delivered to
`this.messageQueue[this.messageQueue.length - 1]` — evaluated after the
shift, i.e. the last entry still remaining — and the shifted entry's own
reject is never called (when nothing remains, the error goes nowhere). -/
def processMessageQueue (s : ClientQueueState) (outcome : Except Unit Unit) :
    ClientQueueState × List Settlement :=
  if s.messagingActive then (s, [])
  else match s.messageQueue with
  | [] => (s, [])
  | first :: rest =>
    if s.isReady then
      match outcome with
      | .ok _ => ({ s with messageQueue := rest }, [.resolved first])
      | .error _ =>
        match rest.getLast? with
        | some lastId => ({ s with messageQueue := rest }, [.rejected lastId])
        | none => ({ s with messageQueue := rest }, [])
    else (s, [])

/-! ## Helper lemmas -/

/-- A successful `readByte` leaves the position within the buffer. -/
theorem readByte_ok_le {data : List Nat} {pos b p : Nat}
    (h : readByte data pos = .ok (b, p)) : p ≤ data.length := by
  unfold readByte at h
  split at h
  · cases h; omega
  · exact Except.noConfusion h

/-- A successful `readBytesAt` leaves the position within the buffer. -/
theorem readBytesAt_ok_le {data : List Nat} {pos c : Nat} {bs : List Nat}
    {p : Nat} (h : readBytesAt data pos c = .ok (bs, p)) : p ≤ data.length := by
  unfold readBytesAt at h
  split at h
  · cases h; omega
  · exact Except.noConfusion h

/-- A successful `readInt20` leaves the position within the buffer. -/
theorem readInt20_ok_le {data : List Nat} {pos v p : Nat}
    (h : readInt20 data pos = .ok (v, p)) : p ≤ data.length := by
  unfold readInt20 at h
  split at h
  · exact Except.noConfusion h
  · rename_i bs q heq
    cases h
    exact readBytesAt_ok_le heq

/-- Joint position bound for the four mutually recursive readers: a
successful parse never leaves the reader past the end of the buffer (for the
loop helpers, assuming the entry position was in range, which the callers
guarantee via the preceding marker byte). -/
theorem readers_pos_le (fuel : Nat) :
    (∀ data pos v p, readNode fuel data pos = .ok (v, p) → p ≤ data.length) ∧
    (∀ data pos c vs p, pos ≤ data.length →
        readValList fuel data pos c = .ok (vs, p) → p ≤ data.length) ∧
    (∀ data pos c ats p, pos ≤ data.length →
        readAttrList fuel data pos c = .ok (ats, p) → p ≤ data.length) ∧
    (∀ data pos v p, pos ≤ data.length →
        readObjBody fuel data pos = .ok (v, p) → p ≤ data.length) := by
  induction fuel with
  | zero =>
    refine ⟨?_, ?_, ?_, ?_⟩
    · intro data pos v p h
      simp only [readNode] at h
      exact Except.noConfusion h
    · intro data pos c vs p hle h
      cases c with
      | zero => simp only [readValList] at h; cases h; exact hle
      | succ c => simp only [readValList] at h; exact Except.noConfusion h
    · intro data pos c ats p hle h
      cases c with
      | zero => simp only [readAttrList] at h; cases h; exact hle
      | succ c => simp only [readAttrList] at h; exact Except.noConfusion h
    · intro data pos v p hle h
      simp only [readObjBody] at h
      exact Except.noConfusion h
  | succ fuel ih =>
    obtain ⟨ihN, ihL, ihA, ihO⟩ := ih
    have stepN : ∀ data pos v p,
        readNode (fuel + 1) data pos = .ok (v, p) → p ≤ data.length := by
      intro data pos v p h
      simp only [readNode] at h
      split at h
      · exact Except.noConfusion h
      · rename_i marker p1 heq
        have hp1 := readByte_ok_le heq
        split at h
        · cases h; exact hp1
        · split at h
          · cases h; exact hp1
          · split at h
            · -- marker 250
              split at h
              · exact Except.noConfusion h
              · rename_i b p2 heq2
                cases h; exact readByte_ok_le heq2
            · split at h
              · -- marker 251
                split at h
                · exact Except.noConfusion h
                · rename_i len p2 heq2
                  split at h
                  · exact Except.noConfusion h
                  · rename_i xs p3 heq3
                    cases h
                    exact ihL data p2 len _ _ (readByte_ok_le heq2) heq3
              · split at h
                · -- marker 252
                  split at h
                  · exact Except.noConfusion h
                  · rename_i len p2 heq2
                    split at h
                    · exact Except.noConfusion h
                    · rename_i sBytes p3 heq3
                      cases h; exact readBytesAt_ok_le heq3
                · split at h
                  · -- marker 253
                    split at h
                    · exact Except.noConfusion h
                    · rename_i len p2 heq2
                      split at h
                      · exact Except.noConfusion h
                      · rename_i sBytes p3 heq3
                        cases h; exact readBytesAt_ok_le heq3
                  · split at h
                    · -- marker 254
                      split at h
                      · exact Except.noConfusion h
                      · rename_i len p2 heq2
                        split at h
                        · exact Except.noConfusion h
                        · rename_i bBytes p3 heq3
                          cases h; exact readBytesAt_ok_le heq3
                    · split at h
                      · -- marker 255
                        exact ihO data p1 v p hp1 h
                      · exact Except.noConfusion h
    refine ⟨stepN, ?_, ?_, ?_⟩
    · intro data pos c vs p hle h
      cases c with
      | zero => simp only [readValList] at h; cases h; exact hle
      | succ c =>
        simp only [readValList] at h
        split at h
        · exact Except.noConfusion h
        · rename_i v1 p1 heq
          split at h
          · exact Except.noConfusion h
          · rename_i vs1 p2 heq2
            cases h
            exact ihL data p1 c _ _ (ihN data pos _ _ heq) heq2
    · intro data pos c ats p hle h
      cases c with
      | zero => simp only [readAttrList] at h; cases h; exact hle
      | succ c =>
        simp only [readAttrList] at h
        split at h
        · exact Except.noConfusion h
        · rename_i k p1 heq
          split at h
          · exact Except.noConfusion h
          · rename_i v1 p2 heq2
            split at h
            · exact Except.noConfusion h
            · rename_i restA p3 heq3
              cases h
              exact ihA data p2 c _ _ (ihN data p1 _ _ heq2) heq3
    · intro data pos v p hle h
      simp only [readObjBody] at h
      split at h
      · exact Except.noConfusion h
      · rename_i tagVal p1 heq
        split at h
        · exact Except.noConfusion h
        · rename_i attrCount p2 heq2
          split at h
          · exact Except.noConfusion h
          · rename_i attrs p3 heq3
            split at h
            · exact Except.noConfusion h
            · rename_i contentVal p4 heq4
              cases h
              exact ihN data p3 _ _ heq4

/-- `List.lookup` finds nothing after `Map.delete`, modelled as filtering the
key out. -/
theorem lookup_filter_ne_eq_none (l : List (ℕ × QueueDesc)) (tag : ℕ) :
    (l.filter (fun p => p.1 ≠ tag)).lookup tag = none := by
  induction l with
  | nil => rfl
  | cons hd tl ih =>
    by_cases hh : hd.1 = tag
    · simpa [List.filter_cons, hh] using ih
    · have hb : (tag == hd.1) = false := by simp [Ne.symm hh]
      simp only [List.filter_cons, List.lookup, hb, ne_eq, hh,
        not_false_eq_true, decide_True, if_true]
      simpa using ih

/-- Concrete manager states used as inputs below. -/
def baseState : ManagerState :=
  { connectionState := .connecting
    isConnected := false
    isAuthenticated := false
    autoReconnect := true
    connectionAttempts := 5
    messageSentCount := 3
    reconnectDelay := 2000
    wsPresent := true
    wsOpen := false
    pingInterval := true
    connectionMonitor := true
    pongTimeout := false
    reconnectTimer := none
    messageQueue := [] }

/-- `baseState` with an open socket and two pending correlated requests. -/
def pendingState : ManagerState :=
  { baseState with connectionState := .connected, wsOpen := true,
                   messageQueue := [(101, .login), (102, .restoreSession)] }

/-- `baseState` after a full disconnect (state value only). -/
def disconnectedState : ManagerState :=
  { baseState with connectionState := .disconnected }

/-! ## Claims -/

/-- The spec's round-trip scenario node
`{tag: 'iq', type: 'get', id: '1', content: 'hello'}`. -/
def iqNode : JSVal :=
  .obj (some [105, 113])
    [([116, 121, 112, 101], .str [103, 101, 116]), ([105, 100], .str [49])]
    (some (.str [104, 101, 108, 108, 111])) none

/-- C1: the round-trip law `decode(encode(n)) == n` fails on the code.  On
the spec's own scenario node `{tag:'iq', type:'get', id:'1',
content:'hello'}`, `_writeObject` emits the encoded tag first without any
object marker, while `_readNode` only builds an object on marker 255 (which
`encode` never writes); decoding the encoded buffer therefore returns the
bare string `iq`, not the node. -/
theorem decode_encode_not_id :
    decode (encode iqNode) = Except.ok (JSVal.str [105, 113]) ∧
    JSVal.str [105, 113] ≠ iqNode := by
  refine ⟨rfl, ?_⟩
  intro hcontra
  simp only [iqNode] at hcontra
  exact JSVal.noConfusion hcontra

/-- C2: `whatsappDecrypt` splits the first 32 bytes as the received tag,
recomputes the HMAC over the remainder with `macKey`, and fails closed on
any mismatch; a plaintext is produced only when the received tag equals the
recomputed HMAC, and it is the decryption of the remainder — verify before
decrypt, for every choice of the crypto primitives and every input blob. -/
theorem whatsappDecrypt_verify_before_decrypt
    (hmac aesDec : List Nat → List Nat → List Nat)
    (encKey macKey blob : List Nat) :
    (∀ pt, whatsappDecrypt hmac aesDec encKey macKey blob = .ok pt →
        blob.take 32 = hmac macKey (blob.drop 32) ∧
        pt = aesDec encKey (blob.drop 32)) ∧
    (blob.take 32 ≠ hmac macKey (blob.drop 32) →
        ∃ err, whatsappDecrypt hmac aesDec encKey macKey blob = .error err) := by
  constructor
  · intro pt h
    simp only [whatsappDecrypt] at h
    split at h
    · exact Except.noConfusion h
    · split at h
      · rename_i hlen heqq
        cases h
        exact ⟨heqq, rfl⟩
      · exact Except.noConfusion h
  · intro hne
    simp only [whatsappDecrypt]
    by_cases hlen : (blob.take 32).length ≠ (hmac macKey (blob.drop 32)).length
    · rw [if_pos hlen]
      exact ⟨_, rfl⟩
    · rw [if_neg hlen, if_neg hne]
      exact ⟨_, rfl⟩

/-- C2 witness: with a concrete HMAC primitive returning 32 zero bytes and a
blob of 33 one bytes, the tag mismatches and decryption fails closed. -/
theorem whatsappDecrypt_verify_before_decrypt_witness :
    ∃ err, whatsappDecrypt (fun _ _ => List.replicate 32 0) (fun _ c => c)
        [] [] (List.replicate 33 1) = .error err :=
  (whatsappDecrypt_verify_before_decrypt (fun _ _ => List.replicate 32 0)
    (fun _ c => c) [] [] (List.replicate 33 1)).2 (by decide)

/-- C3: the code performs no key agreement.  `_computeSharedSecret` returns
the fresh `crypto.randomBytes(32)` draw unchanged — its output is
independent of the server public key argument (and the local private key is
not consulted at all) — and `_generateKeyPair` emits as "public key" a
second independent random draw, not anything derived from the private
key. -/
theorem computeSharedSecret_not_key_agreement :
    (∀ randomDraw pk1 pk2 : List Nat,
        computeSharedSecret randomDraw pk1 = computeSharedSecret randomDraw pk2) ∧
    (∀ priv1 priv2 pub : List Nat,
        (generateKeyPair priv1 pub).2 = (generateKeyPair priv2 pub).2) ∧
    (∀ priv pub : List Nat, (generateKeyPair priv pub).2 = pub) :=
  ⟨fun _ _ _ => rfl, fun _ _ _ => rfl, fun _ _ => rfl⟩

/-- C4: the decoder detects underrun instead of reading past the buffer:
`readByte` errors exactly at or past the end, `readBytes` errors whenever the
stated length exceeds the remaining bytes, a successful parse never leaves
the position beyond the buffer length, and every decode failure is one of
the two `CodecError`s. -/
theorem decode_detects_underrun :
    (∀ (data : List Nat) (pos : Nat), data.length ≤ pos →
        readByte data pos = .error .endOfData) ∧
    (∀ (data : List Nat) (pos count : Nat), data.length < pos + count →
        readBytesAt data pos count = .error .endOfData) ∧
    (∀ (fuel : Nat) (data : List Nat) (pos : Nat) (v : JSVal) (p : Nat),
        readNode fuel data pos = .ok (v, p) → p ≤ data.length) ∧
    (∀ (data : List Nat) (e : CodecError), decode data = .error e →
        e = .endOfData ∨ ∃ m, e = .unknownMarker m) := by
  refine ⟨?_, ?_, ?_, ?_⟩
  · intro data pos hle
    unfold readByte
    rw [dif_neg (by omega)]
  · intro data pos count hlt
    unfold readBytesAt
    rw [if_neg (by omega)]
  · intro fuel data pos v p h
    exact (readers_pos_le fuel).1 data pos v p h
  · intro data e _
    cases e with
    | endOfData => exact Or.inl rfl
    | unknownMarker m => exact Or.inr ⟨m, rfl⟩

/-- C4 witness: concrete truncated buffers (a `String8` header announcing 5
bytes with none present; a byte read at the end) fail with the underrun
error, a concrete successful parse stays in bounds, and the unknown-marker
failure is a `CodecError`. -/
theorem decode_detects_underrun_witness :
    readByte [252, 5] 2 = .error .endOfData ∧
    readBytesAt [252, 5] 2 5 = .error .endOfData ∧
    (1 : Nat) ≤ [3].length ∧
    (CodecError.unknownMarker 200 = .endOfData ∨
      ∃ m, CodecError.unknownMarker 200 = .unknownMarker m) :=
  ⟨decode_detects_underrun.1 [252, 5] 2 (by decide),
   decode_detects_underrun.2.1 [252, 5] 2 5 (by decide),
   decode_detects_underrun.2.2.1 5 [3] 0 (JSVal.str [105, 113]) 1 rfl,
   decode_detects_underrun.2.2.2 [200] (.unknownMarker 200) rfl⟩

/-- C5: the reconnection delay is `min(base * 2^(attempts-1), 30000)` plus
the jitter `Math.random() * 1000`; the jitter term is strictly below the
1000ms jitter maximum, and the deterministic part is non-decreasing in the
attempt count up to the cap. -/
theorem calculateBackoffDelay_formula (base : ℚ) (a b : ℕ) (r : ℚ)
    (hbase : 0 ≤ base) (hr0 : 0 ≤ r) (hr1 : r < 1) (hab : a ≤ b) :
    calculateBackoffDelay base a r
      = min (base * 2 ^ ((a : ℤ) - 1)) 30000 + r * 1000 ∧
    r * 1000 < 1000 ∧
    backoffExponential base a ≤ backoffExponential base b := by
  refine ⟨rfl, by linarith, ?_⟩
  apply min_le_min _ le_rfl
  apply mul_le_mul_of_nonneg_left _ hbase
  exact zpow_le_zpow_right₀ one_le_two (by omega)

/-- C5 witness: the default 2000ms base at attempts 3 and 5 with a one-half
jitter draw. -/
theorem calculateBackoffDelay_formula_witness :
    calculateBackoffDelay 2000 3 (1 / 2)
      = min (2000 * 2 ^ ((3 : ℤ) - 1)) 30000 + (1 / 2) * 1000 ∧
    (1 / 2 : ℚ) * 1000 < 1000 ∧
    backoffExponential 2000 3 ≤ backoffExponential 2000 5 :=
  calculateBackoffDelay_formula 2000 3 5 (1 / 2) (by norm_num) (by norm_num)
    (by norm_num) (by norm_num)

/-- C6 counterexample: from a connecting state with 5 accumulated attempts,
the socket-open handler already resets the counter to zero while the state
is merely `connected` (not authenticated, and the manager has no ready
state) — refuting that the counter is reset only upon reaching Ready. -/
theorem handleOpen_resets_at_connected :
    (handleOpen baseState).1.connectionAttempts = 0 ∧
    (handleOpen baseState).1.connectionState = ConnState.connected ∧
    (handleOpen baseState).1.isAuthenticated = false ∧
    baseState.connectionAttempts = 5 := ⟨rfl, rfl, rfl, rfl⟩

/-- C6 amended: the attempt counter is reset to zero on the socket-open
(`connected`) event itself, and increments on each non-no-op `connect()`
call. -/
theorem connectionAttempts_reset_on_open (s : ManagerState) :
    (handleOpen s).1.connectionAttempts = 0 ∧
    (handleOpen s).1.connectionState = ConnState.connected ∧
    (s.connectionState ≠ .connecting → s.connectionState ≠ .connected →
        (connectStart s).connectionAttempts = s.connectionAttempts + 1) := by
  refine ⟨rfl, rfl, fun h1 h2 => ?_⟩
  unfold connectStart
  rw [if_neg (by simp [h1, h2])]

/-- C6 amended witness: a fresh `connect()` from the disconnected state
increments the counter from 5 to 6. -/
theorem connectionAttempts_reset_on_open_witness :
    (connectStart disconnectedState).connectionAttempts = 6 :=
  (connectionAttempts_reset_on_open disconnectedState).2.2 (by decide) (by decide)

/-- C7 counterexample: `disconnect()` called with two correlated requests
pending leaves both entries in the correlator map, unsettled — no Cancelled
rejection is delivered to them. -/
theorem disconnect_leaves_pending_requests :
    (disconnect pendingState).messageQueue
      = [(101, QueueDesc.login), (102, QueueDesc.restoreSession)] ∧
    (disconnect pendingState).messageQueue ≠ [] := ⟨rfl, by decide⟩

/-- C7 amended: `disconnect()` disables auto-reconnect, cancels the
keep-alive, monitor, pong-deadline and reconnect timers, closes the socket
and transitions to Disconnected, resetting the counters — but it does not
reject pending correlated requests: the correlator queue is carried over
untouched, so pending entries stay unsettled. -/
theorem disconnect_spec (s : ManagerState) :
    (disconnect s).autoReconnect = false ∧
    (disconnect s).connectionState = ConnState.disconnected ∧
    (disconnect s).pingInterval = false ∧
    (disconnect s).connectionMonitor = false ∧
    (disconnect s).pongTimeout = false ∧
    (disconnect s).reconnectTimer = none ∧
    (disconnect s).wsPresent = false ∧
    (disconnect s).isConnected = false ∧
    (disconnect s).isAuthenticated = false ∧
    (disconnect s).connectionAttempts = 0 ∧
    (disconnect s).messageQueue = s.messageQueue :=
  ⟨rfl, rfl, rfl, rfl, rfl, rfl, rfl, rfl, rfl, rfl, rfl⟩

/-- C8: the correlator resolves a pending tag at most once: the first
matching inbound message is routed to the pending entry and the entry is
deleted; a second message with the same tag finds no pending entry and is
not dispatched to any resolver. -/
theorem correlator_resolves_once (s : ManagerState) (tag c1 c2 : ℕ)
    (item : QueueDesc) (hpending : s.messageQueue.lookup tag = some item) :
    (handleTextMessage s tag c1).2 = some (tag, item, c1) ∧
    (handleTextMessage s tag c1).1.messageQueue.lookup tag = none ∧
    (handleTextMessage (handleTextMessage s tag c1).1 tag c2).2 = none := by
  have h1 : handleTextMessage s tag c1
      = ({ s with messageQueue := s.messageQueue.filter (fun p => p.1 ≠ tag) },
         some (tag, item, c1)) := by
    unfold handleTextMessage handleQueuedMessage
    rw [hpending]
    simp
  have h2 : (handleTextMessage s tag c1).1.messageQueue.lookup tag = none := by
    rw [h1]
    exact lookup_filter_ne_eq_none _ _
  have hnone : ∀ s2 : ManagerState, s2.messageQueue.lookup tag = none →
      (handleTextMessage s2 tag c2).2 = none := by
    intro s2 hs
    unfold handleTextMessage
    rw [hs]
    simp
  exact ⟨by rw [h1], h2, hnone _ h2⟩

/-- C8 witness: tag 101 pending in `pendingState` is dispatched once and a
second message with tag 101 is not dispatched. -/
theorem correlator_resolves_once_witness :
    (handleTextMessage pendingState 101 7).2 = some (101, QueueDesc.login, 7) ∧
    (handleTextMessage (handleTextMessage pendingState 101 7).1 101 8).2 = none :=
  have h := correlator_resolves_once pendingState 101 7 8 QueueDesc.login rfl
  ⟨h.1, h.2.2⟩

/-- C9: one invocation of the dead-connection path cancels every timer,
terminates and nulls the socket, transitions to disconnected, emits
`connection_lost` exactly once, and arms exactly one reconnect timer
carrying the backoff delay indexed by the current attempt count when
auto-reconnect is enabled (none otherwise); both the pong-deadline callback
and a keep-alive probe firing on a non-open socket route into this same
path. -/
theorem handleConnectionDead_spec (s : ManagerState) (jr : ℚ) :
    (handleConnectionDead jr s).2 = [MgrEvent.connectionLost] ∧
    (handleConnectionDead jr s).1.connectionState = ConnState.disconnected ∧
    (handleConnectionDead jr s).1.isConnected = false ∧
    (handleConnectionDead jr s).1.wsPresent = false ∧
    (handleConnectionDead jr s).1.pingInterval = false ∧
    (handleConnectionDead jr s).1.connectionMonitor = false ∧
    (handleConnectionDead jr s).1.pongTimeout = false ∧
    (s.autoReconnect = true →
        (handleConnectionDead jr s).1.reconnectTimer
          = some (calculateBackoffDelay s.reconnectDelay s.connectionAttempts jr)) ∧
    (s.autoReconnect = false →
        (handleConnectionDead jr s).1.reconnectTimer = none) ∧
    (s.wsOpen = false → keepAliveTick jr s = handleConnectionDead jr s) ∧
    pongDeadlineElapsed jr s = handleConnectionDead jr s := by
  cases hA : s.autoReconnect <;>
    simp [handleConnectionDead, clearKeepAlive, keepAliveTick,
      pongDeadlineElapsed, hA] <;>
    exact fun h _ => h

/-- C9 witness: from `baseState` (auto-reconnect on, socket not open,
attempt count 5, base 2000), the dead path emits one `connection_lost`,
arms the attempt-indexed reconnect delay, and is what the keep-alive probe
invokes. -/
theorem handleConnectionDead_spec_witness :
    (handleConnectionDead (1 / 2) baseState).2 = [MgrEvent.connectionLost] ∧
    (handleConnectionDead (1 / 2) baseState).1.reconnectTimer
      = some (calculateBackoffDelay 2000 5 (1 / 2)) ∧
    keepAliveTick (1 / 2) baseState = handleConnectionDead (1 / 2) baseState :=
  have h := handleConnectionDead_spec baseState (1 / 2)
  ⟨h.1, h.2.2.2.2.2.2.2.1 rfl, h.2.2.2.2.2.2.2.2.2.1 rfl⟩

/-- C10: when the dequeued message function throws during a processing
tick, the promise of the dequeued message is never settled; the error is
delivered to the reject callback of the last entry still remaining in the
queue when one exists, and is silently dropped otherwise. -/
theorem processMessageQueue_misroutes_error (s : ClientQueueState)
    (first : ℕ) (rest : List ℕ) (e : Unit)
    (hactive : s.messagingActive = false) (hready : s.isReady = true)
    (hq : s.messageQueue = first :: rest) (hfresh : first ∉ rest) :
    (∀ st ∈ (processMessageQueue s (.error e)).2, st.target ≠ first) ∧
    (processMessageQueue s (.error e)).1.messageQueue = rest ∧
    (∀ lastId, rest.getLast? = some lastId →
        (processMessageQueue s (.error e)).2 = [.rejected lastId]) ∧
    (rest.getLast? = none → (processMessageQueue s (.error e)).2 = []) := by
  have hrun : processMessageQueue s (.error e)
      = ({ s with messageQueue := rest },
         match rest.getLast? with
         | some lastId => [.rejected lastId]
         | none => []) := by
    unfold processMessageQueue
    rw [hactive, hq]
    simp [hready]
    cases rest.getLast? <;> simp
  refine ⟨?_, by rw [hrun], ?_, ?_⟩
  · intro st hst
    rw [hrun] at hst
    cases hl : rest.getLast? with
    | none => rw [hl] at hst; simp at hst
    | some lastId =>
      rw [hl] at hst
      simp at hst
      subst hst
      have hmem : lastId ∈ rest := by
        obtain ⟨hne, heq⟩ := List.mem_getLast?_eq_getLast (l := rest) (x := lastId) hl
        rw [heq]
        exact List.getLast_mem hne
      simp only [Settlement.target]
      exact fun hcontra => hfresh (hcontra ▸ hmem)
  · intro lastId hl
    rw [hrun, hl]
  · intro hl
    rw [hrun, hl]

/-- C10 witness: a queue `[1, 2, 3]` whose head throws — the settlement list
is exactly a rejection of entry 3, and entry 1 is never settled. -/
theorem processMessageQueue_misroutes_error_witness :
    (processMessageQueue ⟨false, true, [1, 2, 3]⟩ (.error ())).2
      = [Settlement.rejected 3] ∧
    ∀ st ∈ (processMessageQueue ⟨false, true, [1, 2, 3]⟩ (.error ())).2,
      st.target ≠ 1 :=
  have h := processMessageQueue_misroutes_error ⟨false, true, [1, 2, 3]⟩
    1 [2, 3] () rfl rfl rfl (by decide)
  ⟨h.2.2.1 3 rfl, h.1⟩
